import Mathlib

/-!
Shallow embedding of `ndmig` (src/src/main.rs): instance discovery over a
container runtime, exec-session dump streaming, and dump-file export.
Runtime responses (inspect, start, exec-create, exec-start, stream chunks)
are modelled as explicit data supplied through a `DockerEnv`; the functions
below mirror the Rust control flow and additionally record the trace of
runtime calls they issue.
-/

namespace Ndmig

/-- Raw bytes of a stream chunk, each entry a byte value. -/
abbrev Bytes := List Nat

/-- Opaque runtime error payload (bollard::errors::Error). -/
abbrev DockerError := String

/-- Models Rust `char::is_whitespace` restricted to the ASCII whitespace
characters that line-based stdin input can contain. -/
def isWsChar (c : Char) : Bool :=
  c = ' ' || c = '\t' || c = '\n' || c = '\r'

/-- Drop leading whitespace characters. -/
def dropWsLeft : List Char → List Char
  | [] => []
  | c :: rest => if isWsChar c then dropWsLeft rest else c :: rest

/-- Models Rust `str::trim`: strip whitespace from both ends. -/
def rustTrim (s : String) : String :=
  String.mk (dropWsLeft ((dropWsLeft s.data.reverse).reverse))

/-- Models Rust `str::ends_with` on string patterns. -/
def rustEndsWith (s pat : String) : Bool :=
  pat.data.isSuffixOf s.data

/-- Drop every leading `'/'`, modelling `str::trim_start_matches("/")`
(the pattern is the single separator character, so the strip repeats
while the string still begins with it). -/
def dropLeadingSlashes : List Char → List Char
  | [] => []
  | c :: rest => if c = '/' then dropLeadingSlashes rest else c :: rest

/-- `name.trim_start_matches("/")` at the `String` level. -/
def stripSlashes (s : String) : String :=
  String.mk (dropLeadingSlashes s.data)

/-- Is `b` a UTF-8 continuation byte (`0x80..=0xBF`)? -/
def isContByte (b : Nat) : Bool :=
  0x80 ≤ b && b ≤ 0xBF

/-- One decoded step of Rust `String::from_utf8_lossy`: invalid sequences
are replaced by U+FFFD (one replacement per maximal invalid subpart);
fuel bounds the recursion by the number of bytes. -/
def utf8LossyAux : Nat → Bytes → List Char
  | 0, _ => []
  | _, [] => []
  | fuel + 1, b0 :: rest =>
    if b0 < 0x80 then
      Char.ofNat b0 :: utf8LossyAux fuel rest
    else if 0xC2 ≤ b0 && b0 ≤ 0xDF then
      match rest with
      | b1 :: r2 =>
        if isContByte b1 then
          Char.ofNat ((b0 - 0xC0) * 64 + (b1 - 0x80)) :: utf8LossyAux fuel r2
        else Char.ofNat 0xFFFD :: utf8LossyAux fuel rest
      | [] => Char.ofNat 0xFFFD :: utf8LossyAux fuel rest
    else if 0xE0 ≤ b0 && b0 ≤ 0xEF then
      let lo2 := if b0 = 0xE0 then 0xA0 else 0x80
      let hi2 := if b0 = 0xED then 0x9F else 0xBF
      match rest with
      | b1 :: r2 =>
        if lo2 ≤ b1 && b1 ≤ hi2 then
          match r2 with
          | b2 :: r3 =>
            if isContByte b2 then
              Char.ofNat ((b0 - 0xE0) * 4096 + (b1 - 0x80) * 64 + (b2 - 0x80)) ::
                utf8LossyAux fuel r3
            else Char.ofNat 0xFFFD :: utf8LossyAux fuel r2
          | [] => Char.ofNat 0xFFFD :: utf8LossyAux fuel r2
        else Char.ofNat 0xFFFD :: utf8LossyAux fuel rest
      | [] => Char.ofNat 0xFFFD :: utf8LossyAux fuel rest
    else if 0xF0 ≤ b0 && b0 ≤ 0xF4 then
      let lo2 := if b0 = 0xF0 then 0x90 else 0x80
      let hi2 := if b0 = 0xF4 then 0x8F else 0xBF
      match rest with
      | b1 :: r2 =>
        if lo2 ≤ b1 && b1 ≤ hi2 then
          match r2 with
          | b2 :: r3 =>
            if isContByte b2 then
              match r3 with
              | b3 :: r4 =>
                if isContByte b3 then
                  Char.ofNat ((b0 - 0xF0) * 262144 + (b1 - 0x80) * 4096 +
                      (b2 - 0x80) * 64 + (b3 - 0x80)) :: utf8LossyAux fuel r4
                else Char.ofNat 0xFFFD :: utf8LossyAux fuel r3
              | [] => Char.ofNat 0xFFFD :: utf8LossyAux fuel r3
            else Char.ofNat 0xFFFD :: utf8LossyAux fuel r2
          | [] => Char.ofNat 0xFFFD :: utf8LossyAux fuel r2
        else Char.ofNat 0xFFFD :: utf8LossyAux fuel rest
      | [] => Char.ofNat 0xFFFD :: utf8LossyAux fuel rest
    else
      Char.ofNat 0xFFFD :: utf8LossyAux fuel rest

/-- Models Rust `String::from_utf8_lossy`: permissive UTF-8 decoding,
invalid byte sequences replaced rather than aborting. -/
def utf8Lossy (bs : Bytes) : String :=
  String.mk (utf8LossyAux bs.length bs)

/-- Container configuration as returned by inspection (`Config`). -/
structure ContainerConfig where
  image : Option String
  deriving DecidableEq

/-- Container state as returned by inspection (`State`). -/
structure ContainerState where
  running : Option Bool
  deriving DecidableEq

/-- Inspection response (`ContainerInspectResponse`): the fields
`is_ballsdex_instance` and `create_database_dump` read. -/
structure InspectInfo where
  config : Option ContainerConfig
  state : Option ContainerState
  deriving DecidableEq

/-- One chunk of the multiplexed exec stream (`bollard::container::LogOutput`);
`other` covers the variants the code ignores (`StdIn`, `Console`). -/
inductive LogOutput where
  | stdOut (message : Bytes)
  | stdErr (message : Bytes)
  | other
  deriving DecidableEq

/-- Result of `start_exec` (`StartExecResults`): an attached multiplexed
stream of chunks (each read may fail), or a detached session. -/
inductive StartExecResults where
  | attached (chunks : List (Except DockerError LogOutput))
  | detached

/-- The runtime calls `create_database_dump` issues, in order. -/
inductive RuntimeCall where
  | inspect
  | start
  | execCreate
  | execStart
  deriving DecidableEq, Repr

/-- Responses of the container runtime to the calls `create_database_dump`
makes against the target container. -/
structure DockerEnv where
  inspectRes : Except DockerError InspectInfo
  startRes : Except DockerError Unit
  createExecRes : Except DockerError String
  startExecRes : Except DockerError StartExecResults

/--
`is_ballsdex_instance` (src/src/main.rs lines 29-39): classify from the
inspection outcome; any inspection error yields `false`, then
`info.config.and_then(|c| c.image).map(|img| img == "postgres").unwrap_or(false)`.
-/
def is_ballsdex_instance (res : Except DockerError InspectInfo) : Bool :=
  match res with
  | .error _ => false
  | .ok info => (((info.config.bind (·.image)).map (· == "postgres")).getD false)

/--
The stream-consumption loop of `create_database_dump`
(src/src/main.rs lines 75-91): fold over the chunks, pushing decoded
stdout onto `output`, emitting each decoded stderr chunk to the diagnostic
channel as it arrives, and aborting on the first read error (`chunk?`).
Returns the loop result together with the diagnostics emitted before
termination.
-/
def runStreamLoop (output : String) :
    List (Except DockerError LogOutput) → (Except DockerError String) × List String
  | [] => (.ok output, [])
  | .error e :: _ => (.error e, [])
  | .ok (.stdOut m) :: rest => runStreamLoop (output ++ utf8Lossy m) rest
  | .ok (.stdErr m) :: rest =>
    let r := runStreamLoop output rest
    (r.1, utf8Lossy m :: r.2)
  | .ok .other :: rest => runStreamLoop output rest

/-- Everything observable from one `create_database_dump` run: its returned
value, the trace of runtime calls issued, and the diagnostics printed. -/
structure DumpRun where
  result : Except DockerError String
  calls : List RuntimeCall
  diagnostics : List String

/-- The exec phase of `create_database_dump` (lines 61-93), entered after
the run-state check with the calls issued so far. -/
def execPhase (env : DockerEnv) (calls : List RuntimeCall) : DumpRun :=
  match env.createExecRes with
  | .error e => ⟨.error e, calls ++ [.execCreate], []⟩
  | .ok _ =>
    match env.startExecRes with
    | .error e => ⟨.error e, calls ++ [.execCreate, .execStart], []⟩
    | .ok .detached => ⟨.ok "", calls ++ [.execCreate, .execStart], []⟩
    | .ok (.attached chunks) =>
      let r := runStreamLoop "" chunks
      ⟨r.1, calls ++ [.execCreate, .execStart], r.2⟩

/--
`create_database_dump` (src/src/main.rs lines 53-94): inspect the target,
start it when `info.state.and_then(|s| s.running).unwrap_or(false)` is
false, then create and start the exec session and drain its stream.
-/
def create_database_dump (env : DockerEnv) : DumpRun :=
  match env.inspectRes with
  | .error e => ⟨.error e, [.inspect], []⟩
  | .ok info =>
    let is_running := (info.state.bind (·.running)).getD false
    if !is_running then
      match env.startRes with
      | .error e => ⟨.error e, [.inspect, .start], []⟩
      | .ok _ => execPhase env [.inspect, .start]
    else
      execPhase env [.inspect]

/-- One entry of the container listing (`list_containers` summary): the
fields `main` reads, identity and names, both optional. -/
structure ContainerSummary where
  id : Option String
  names : Option (List String)

/-- A `HashMap<String, String>` modelled extensionally as its insertion
sequence; later insertions of the same key override earlier ones. -/
abbrev Registry := List (String × String)

/-- `HashMap::insert`: record the binding; `hashMapFind` gives the later
binding priority, so this is insert-with-overwrite. -/
def hashMapInsert (m : Registry) (k v : String) : Registry :=
  m ++ [(k, v)]

/-- `HashMap` lookup (`instances[&key]` / `contains_key`): the most recent
binding of the key wins. -/
def hashMapFind (m : Registry) (key : String) : Option String :=
  match m with
  | [] => none
  | (k, v) :: rest =>
    match hashMapFind rest key with
    | some v2 => some v2
    | none => if k == key then some v else none

/-- Display-name resolution in `main` (src/src/main.rs lines 254-260):
first listed name with leading `/` stripped, falling back to the raw
identity when no name is available. -/
def resolveDisplayName (names : Option (List String)) (id : String) : String :=
  (((names.getD []).head?).map stripSlashes).getD id

/-- The body of the discovery loop in `main` (lines 248-266) for one
container: skip entries with no identity, classify via
`is_ballsdex_instance`, then keep only display names ending in
`"postgres-db-1"`. `inspectOf` supplies the runtime's inspection response
for each identity. -/
def instanceEntry (inspectOf : String → Except DockerError InspectInfo)
    (c : ContainerSummary) : Option (String × String) :=
  match c.id with
  | none => none
  | some id =>
    if is_ballsdex_instance (inspectOf id) then
      let project_name := resolveDisplayName c.names id
      if rustEndsWith project_name "postgres-db-1" then
        some (project_name, id)
      else none
    else none

/-- The instance-registry construction in `main` (lines 246-266): fold the
listing, inserting each matching container. -/
def buildInstances (inspectOf : String → Except DockerError InspectInfo)
    (all : List ContainerSummary) : Registry :=
  all.foldl
    (fun instances c =>
      match instanceEntry inspectOf c with
      | some (k, v) => hashMapInsert instances k v
      | none => instances)
    []

/-- `export_setup` (src/src/main.rs lines 122-149), its I/O reduced to the
operator's input line: resolve the chosen key as
`input.trim().to_string() + "-postgres-db-1"`; `none` models the
`process::exit(1)` branch when the key is absent, otherwise the pair
(instance key, container id) is returned. -/
def export_setup (instances : Registry) (input : String) : Option (String × String) :=
  let chosen := rustTrim input ++ "-postgres-db-1"
  match hashMapFind instances chosen with
  | none => none
  | some container_id => some (chosen, container_id)

/-- The dump destination path computed by `export` (lines 162-165):
`std::env::temp_dir().join("ndmig").join(format!("{}-ndmig.sql", container_id))`,
with `tmp` the platform temporary root. -/
def dumpPath (tmp container_id : String) : String :=
  (tmp ++ "/" ++ "ndmig") ++ "/" ++ (container_id ++ "-ndmig.sql")

/-- Everything observable from one `export` run: the file written (path and
contents, `none` when nothing was written), whether the temp directory was
ensured (`create_dir_all`), the runtime calls issued, the diagnostics, and
whether the process path ends with exit code zero. -/
structure ExportRun where
  written : Option (String × String)
  tempDirEnsured : Bool
  calls : List RuntimeCall
  diagnostics : List String
  exitZero : Bool

/-- `export` (src/src/main.rs lines 159-184): select via `export_setup`
(exiting non-zero on an unknown key before any runtime call or filesystem
touch), ensure the temp directory, run `create_database_dump`, and on
success write the dump file; on dump failure exit non-zero with nothing
written. -/
def doExport (env : DockerEnv) (tmp : String) (instances : Registry)
    (input : String) : ExportRun :=
  match export_setup instances input with
  | none => ⟨none, false, [], [], false⟩
  | some (_instance, container_id) =>
    let dump_path := dumpPath tmp container_id
    let run := create_database_dump env
    match run.result with
    | .ok sql => ⟨some (dump_path, sql), true, run.calls, run.diagnostics, true⟩
    | .error _ => ⟨none, true, run.calls, run.diagnostics, false⟩

/-- Concatenation of a list of strings in order (the accumulated
`output.push_str` result). -/
def joinAll : List String → String
  | [] => ""
  | s :: rest => s ++ joinAll rest

/-- Projection of a chunk list to the payloads of its stdout chunks. -/
def stdoutBytes (chunks : List LogOutput) : List Bytes :=
  chunks.filterMap fun c =>
    match c with
    | .stdOut m => some m
    | _ => none

/-- Projection of a chunk list to the payloads of its stderr chunks. -/
def stderrBytes (chunks : List LogOutput) : List Bytes :=
  chunks.filterMap fun c =>
    match c with
    | .stdErr m => some m
    | _ => none

/-- A runtime environment in which every call succeeds: the target is a
running `postgres` container and the exec stream delivers `chunks` without
read errors. Used to instantiate theorems at concrete runs. -/
def okEnv (chunks : List LogOutput) : DockerEnv :=
  ⟨.ok ⟨some ⟨some "postgres"⟩, some ⟨some true⟩⟩, .ok (), .ok "execid",
    .ok (.attached (chunks.map .ok))⟩

/-- A runtime environment identical to `okEnv` except that the target is
inspected as stopped. -/
def stoppedEnv (chunks : List LogOutput) : DockerEnv :=
  ⟨.ok ⟨some ⟨some "postgres"⟩, some ⟨some false⟩⟩, .ok (), .ok "execid",
    .ok (.attached (chunks.map .ok))⟩

section Lemmas

/-- `dropLeadingSlashes` never leaves a leading `'/'`. -/
lemma dropLeadingSlashes_head : ∀ l : List Char,
    (dropLeadingSlashes l).head? ≠ some '/' := by
  intro l
  induction l with
  | nil => simp [dropLeadingSlashes]
  | cons c rest ih =>
    by_cases hc : c = '/'
    · simpa [dropLeadingSlashes, hc] using ih
    · simp [dropLeadingSlashes, hc]

/-- `dropLeadingSlashes` is idempotent. -/
lemma dropLeadingSlashes_idem : ∀ l : List Char,
    dropLeadingSlashes (dropLeadingSlashes l) = dropLeadingSlashes l := by
  intro l
  induction l with
  | nil => simp [dropLeadingSlashes]
  | cons c rest ih =>
    by_cases hc : c = '/'
    · simpa [dropLeadingSlashes, hc] using ih
    · simp [dropLeadingSlashes, hc]

/-- Draining an error-free stream accumulates exactly the decoded stdout
chunks, in order, onto the buffer, and emits exactly the decoded stderr
chunks as diagnostics. -/
lemma runStreamLoop_ok (chunks : List LogOutput) : ∀ out : String,
    runStreamLoop out (chunks.map .ok) =
      (.ok (out ++ joinAll ((stdoutBytes chunks).map utf8Lossy)),
        (stderrBytes chunks).map utf8Lossy) := by
  induction chunks with
  | nil => intro out; simp [runStreamLoop, stdoutBytes, stderrBytes, joinAll]
  | cons c rest ih =>
    intro out
    cases c with
    | stdOut m =>
      simp only [List.map_cons, runStreamLoop, ih, stdoutBytes, stderrBytes,
        List.filterMap_cons, joinAll]
      rw [String.append_assoc]
    | stdErr m =>
      simp [runStreamLoop, ih, stdoutBytes, stderrBytes, List.filterMap_cons, joinAll]
    | other =>
      simp [runStreamLoop, ih, stdoutBytes, stderrBytes, List.filterMap_cons]

/-- Draining a stream whose reads succeed up to a failing read yields that
read's error — the accumulated buffer is dropped — after emitting the
diagnostics of the successful stderr chunks before the failure. -/
lemma runStreamLoop_error (good : List LogOutput) (e : DockerError)
    (rest : List (Except DockerError LogOutput)) : ∀ out : String,
    runStreamLoop out (good.map .ok ++ .error e :: rest) =
      (.error e, (stderrBytes good).map utf8Lossy) := by
  induction good with
  | nil => intro out; simp [runStreamLoop, stderrBytes]
  | cons c g ih =>
    intro out
    cases c with
    | stdOut m => simp [runStreamLoop, ih, stderrBytes, List.filterMap_cons]
    | stdErr m => simp [runStreamLoop, ih, stderrBytes, List.filterMap_cons]
    | other => simp [runStreamLoop, ih, stderrBytes, List.filterMap_cons]

/-- When every runtime call succeeds and the exec stream is attached and
error-free, `create_database_dump` returns the concatenated decoded stdout
and routes the decoded stderr chunks to diagnostics. -/
lemma create_dump_ok (env : DockerEnv) (info : InspectInfo) (eid : String)
    (chunks : List LogOutput)
    (h1 : env.inspectRes = .ok info) (h2 : env.startRes = .ok ())
    (h3 : env.createExecRes = .ok eid)
    (h4 : env.startExecRes = .ok (.attached (chunks.map .ok))) :
    (create_database_dump env).result =
      .ok (joinAll ((stdoutBytes chunks).map utf8Lossy)) ∧
    (create_database_dump env).diagnostics = (stderrBytes chunks).map utf8Lossy := by
  have hexec : execPhase env [.inspect] =
      ⟨.ok (joinAll ((stdoutBytes chunks).map utf8Lossy)),
        [.inspect] ++ [.execCreate, .execStart],
        (stderrBytes chunks).map utf8Lossy⟩ := by
    simp [execPhase, h3, h4, runStreamLoop_ok, String.empty_append]
  have hexec2 : execPhase env [.inspect, .start] =
      ⟨.ok (joinAll ((stdoutBytes chunks).map utf8Lossy)),
        [.inspect, .start] ++ [.execCreate, .execStart],
        (stderrBytes chunks).map utf8Lossy⟩ := by
    simp [execPhase, h3, h4, runStreamLoop_ok, String.empty_append]
  unfold create_database_dump
  rw [h1]
  by_cases hr : (info.state.bind (·.running)).getD false
  · simp [hr, hexec]
  · simp [eq_false_of_ne_true hr, h2, hexec2]

/-- When the runtime calls leading to the stream succeed but a stream read
fails, `create_database_dump` returns that read's error. -/
lemma create_dump_error (env : DockerEnv) (info : InspectInfo) (eid : String)
    (good : List LogOutput) (e : DockerError)
    (rest : List (Except DockerError LogOutput))
    (h1 : env.inspectRes = .ok info) (h2 : env.startRes = .ok ())
    (h3 : env.createExecRes = .ok eid)
    (h4 : env.startExecRes = .ok (.attached (good.map .ok ++ .error e :: rest))) :
    (create_database_dump env).result = .error e := by
  have hexec : ∀ calls : List RuntimeCall, (execPhase env calls).result = .error e := by
    intro calls
    simp [execPhase, h3, h4, runStreamLoop_error]
  unfold create_database_dump
  rw [h1]
  by_cases hr : (info.state.bind (·.running)).getD false
  · simp [hr, hexec]
  · simp [eq_false_of_ne_true hr, h2, hexec]

/-- The exec phase only appends exec calls to the trace it is given. -/
lemma execPhase_calls (env : DockerEnv) (calls : List RuntimeCall) :
    (execPhase env calls).calls = calls ++ [.execCreate] ∨
    (execPhase env calls).calls = calls ++ [.execCreate, .execStart] := by
  unfold execPhase
  rcases env.createExecRes with e | eid
  · exact Or.inl rfl
  · rcases h : env.startExecRes with e | r
    · exact Or.inr rfl
    · cases r <;> simp

/-- On a container inspected as not running, the trace holds exactly one
start call, and it precedes any exec-create call. -/
lemma start_trace_of_not_running (env : DockerEnv) (info : InspectInfo)
    (h1 : env.inspectRes = .ok info)
    (hr : (info.state.bind (·.running)).getD false = false) :
    (create_database_dump env).calls.count .start = 1 ∧
    (create_database_dump env).calls.findIdx (· == RuntimeCall.start) <
      (create_database_dump env).calls.findIdx (· == RuntimeCall.execCreate) := by
  unfold create_database_dump
  rw [h1]
  simp only [hr, Bool.not_false, if_pos]
  rcases hs : env.startRes with e | u
  · show List.count RuntimeCall.start [RuntimeCall.inspect, RuntimeCall.start] = 1 ∧
      List.findIdx (fun x => x == RuntimeCall.start)
          [RuntimeCall.inspect, RuntimeCall.start] <
        List.findIdx (fun x => x == RuntimeCall.execCreate)
          [RuntimeCall.inspect, RuntimeCall.start]
    decide
  · rcases execPhase_calls env [.inspect, .start] with hc | hc <;>
      rw [hc] <;> decide

/-- On a container inspected as running, the trace holds no start call. -/
lemma no_start_trace_of_running (env : DockerEnv) (info : InspectInfo)
    (h1 : env.inspectRes = .ok info)
    (hr : (info.state.bind (·.running)).getD false = true) :
    (create_database_dump env).calls.count .start = 0 := by
  unfold create_database_dump
  rw [h1]
  simp only [hr, Bool.not_true, Bool.false_eq_true, if_false]
  rcases execPhase_calls env [.inspect] with hc | hc <;> rw [hc] <;> decide

/-- A key is found in the modelled hash map exactly when some binding of
it was inserted. -/
lemma hashMapFind_isSome_iff (key : String) : ∀ m : Registry,
    (hashMapFind m key).isSome = true ↔ ∃ v, (key, v) ∈ m := by
  intro m
  induction m with
  | nil => simp [hashMapFind]
  | cons p rest ih =>
    obtain ⟨k, v⟩ := p
    constructor
    · intro h
      rw [hashMapFind] at h
      rcases hf : hashMapFind rest key with _ | v2
      · rw [hf] at h
        simp only at h
        by_cases hk : k == key
        · have hkk : k = key := beq_iff_eq.mp hk
          exact ⟨v, by simp [hkk]⟩
        · rw [if_neg hk] at h; simp at h
      · obtain ⟨v', hv'⟩ := ih.mp (by simp [hf])
        exact ⟨v', List.mem_cons_of_mem _ hv'⟩
    · rintro ⟨v', hv'⟩
      rw [hashMapFind]
      rcases hf : hashMapFind rest key with _ | v2
      · rcases List.mem_cons.mp hv' with heq | hmem
        · obtain ⟨h1, h2⟩ := Prod.mk.injEq .. ▸ heq
          simp [h1.symm]
        · exact absurd (ih.mpr ⟨v', hmem⟩) (by simp [hf])
      · simp


/-- A successful lookup returns a binding that was inserted. -/
lemma hashMapFind_mem (key v : String) : ∀ m : Registry,
    hashMapFind m key = some v → (key, v) ∈ m := by
  intro m
  induction m with
  | nil => simp [hashMapFind]
  | cons p rest ih =>
    obtain ⟨k, v0⟩ := p
    intro h
    rw [hashMapFind] at h
    rcases hf : hashMapFind rest key with _ | v2
    · rw [hf] at h
      by_cases hk : k == key
      · rw [if_pos hk] at h
        have hkk : k = key := beq_iff_eq.mp hk
        obtain rfl : v0 = v := by simpa using h
        simp [hkk]
      · rw [if_neg hk] at h; simp at h
    · rw [hf] at h
      obtain rfl : v2 = v := by simpa using h
      exact List.mem_cons_of_mem _ (ih hf)

/-- The discovery fold is the per-container entry map: each container
contributes at most one insertion, in listing order. -/
lemma buildInstances_eq_filterMap
    (inspectOf : String → Except DockerError InspectInfo)
    (all : List ContainerSummary) :
    buildInstances inspectOf all = all.filterMap (instanceEntry inspectOf) := by
  have key : ∀ (l : List ContainerSummary) (acc : Registry),
      l.foldl
        (fun instances c =>
          match instanceEntry inspectOf c with
          | some (k, v) => hashMapInsert instances k v
          | none => instances)
        acc = acc ++ l.filterMap (instanceEntry inspectOf) := by
    intro l
    induction l with
    | nil => intro acc; simp
    | cons c rest ih =>
      intro acc
      rcases he : instanceEntry inspectOf c with _ | ⟨k, v⟩
      · rw [List.foldl_cons, he, ih]
        simp [List.filterMap_cons, he]
      · rw [List.foldl_cons, he, ih]
        simp [List.filterMap_cons, he, hashMapInsert, List.append_assoc]
  exact key all []

/-- What it takes for one listed container to contribute a registry
entry. -/
lemma instanceEntry_eq_some (inspectOf : String → Except DockerError InspectInfo)
    (c : ContainerSummary) (k v : String) :
    instanceEntry inspectOf c = some (k, v) ↔
      c.id = some v ∧ is_ballsdex_instance (inspectOf v) = true ∧
        resolveDisplayName c.names v = k ∧ rustEndsWith k "postgres-db-1" = true := by
  unfold instanceEntry
  rcases hid : c.id with _ | id
  · simp
  · simp only []
    by_cases hb : is_ballsdex_instance (inspectOf id)
    · rw [if_pos hb]
      by_cases hs : rustEndsWith (resolveDisplayName c.names id) "postgres-db-1"
      · rw [if_pos hs]
        constructor
        · rintro h
          obtain ⟨h1, h2⟩ := Prod.mk.injEq .. ▸ Option.some.injEq .. ▸ h
          subst h2; subst h1
          exact ⟨rfl, hb, rfl, hs⟩
        · rintro ⟨hv, _, hk, _⟩
          obtain rfl : id = v := by simpa using hv
          rw [hk]
      · rw [if_neg hs]
        constructor
        · intro h; simp at h
        · rintro ⟨hv, _, hk, hks⟩
          obtain rfl : id = v := by simpa using hv
          exact absurd (hk ▸ hks) hs
    · rw [if_neg hb]
      constructor
      · intro h; simp at h
      · rintro ⟨hv, hb', _⟩
        obtain rfl : id = v := by simpa using hv
        exact absurd hb' hb

/-- The Signature Matcher accepts exactly the successfully inspected
containers whose configured image is exactly `"postgres"`. -/
lemma is_ballsdex_instance_iff (res : Except DockerError InspectInfo) :
    is_ballsdex_instance res = true ↔
      ∃ info cfg, res = .ok info ∧ info.config = some cfg ∧
        cfg.image = some "postgres" := by
  constructor
  · intro h
    rcases res with e | info
    · simp [is_ballsdex_instance] at h
    · rcases hc : info.config with _ | cfg
      · simp [is_ballsdex_instance, hc] at h
      · rcases hi : cfg.image with _ | img
        · simp [is_ballsdex_instance, hc, hi] at h
        · have himg : img = "postgres" := by
            simpa [is_ballsdex_instance, hc, hi] using h
          exact ⟨info, cfg, rfl, hc, by rw [hi, himg]⟩
  · rintro ⟨info, cfg, rfl, hc, hi⟩
    simp [is_ballsdex_instance, hc, hi]

end Lemmas

/-- C1: for every container list, a key is in the instance registry iff it
is the resolved display name of a listed container (with an identity)
whose inspected image is exactly `"postgres"` and whose display name ends
with `"postgres-db-1"`; and the registry maps that display name to such a
container's identity. -/
theorem registry_membership_iff
    (inspectOf : String → Except DockerError InspectInfo)
    (all : List ContainerSummary) (k : String) :
    ((hashMapFind (buildInstances inspectOf all) k).isSome = true ↔
      ∃ c ∈ all, ∃ id, c.id = some id ∧
        (∃ info cfg, inspectOf id = .ok info ∧ info.config = some cfg ∧
          cfg.image = some "postgres") ∧
        resolveDisplayName c.names id = k ∧
        rustEndsWith k "postgres-db-1" = true) ∧
    (∀ v, hashMapFind (buildInstances inspectOf all) k = some v →
      ∃ c ∈ all, c.id = some v ∧
        (∃ info cfg, inspectOf v = .ok info ∧ info.config = some cfg ∧
          cfg.image = some "postgres") ∧
        resolveDisplayName c.names v = k ∧
        rustEndsWith k "postgres-db-1" = true) := by
  rw [buildInstances_eq_filterMap]
  constructor
  · rw [hashMapFind_isSome_iff]
    constructor
    · rintro ⟨v, hv⟩
      obtain ⟨c, hc, hce⟩ := List.mem_filterMap.mp hv
      obtain ⟨hid, hb, hname, hsuf⟩ := (instanceEntry_eq_some ..).mp hce
      exact ⟨c, hc, v, hid, (is_ballsdex_instance_iff _).mp hb, hname, hsuf⟩
    · rintro ⟨c, hc, id, hid, hb, hname, hsuf⟩
      refine ⟨id, List.mem_filterMap.mpr ⟨c, hc, ?_⟩⟩
      exact (instanceEntry_eq_some ..).mpr
        ⟨hid, (is_ballsdex_instance_iff _).mpr hb, hname, hsuf⟩
  · intro v hv
    obtain ⟨c, hc, hce⟩ := List.mem_filterMap.mp (hashMapFind_mem _ _ _ hv)
    obtain ⟨hid, hb, hname, hsuf⟩ := (instanceEntry_eq_some ..).mp hce
    exact ⟨c, hc, hid, (is_ballsdex_instance_iff _).mp hb, hname, hsuf⟩

/-- C1 witness: a concrete one-container list whose registry lookup
succeeds, instantiating the mapping direction. -/
theorem registry_membership_iff_witness :
    ∃ c ∈ [(⟨some "cid123", some ["/acme-postgres-db-1"]⟩ : ContainerSummary)],
      c.id = some "cid123" ∧
      (∃ info cfg,
        (fun _ : String =>
            (.ok ⟨some ⟨some "postgres"⟩, some ⟨some true⟩⟩ :
              Except DockerError InspectInfo)) "cid123" = .ok info ∧
          info.config = some cfg ∧ cfg.image = some "postgres") ∧
      resolveDisplayName c.names "cid123" = "acme-postgres-db-1" ∧
      rustEndsWith "acme-postgres-db-1" "postgres-db-1" = true :=
  (registry_membership_iff
      (fun _ => .ok ⟨some ⟨some "postgres"⟩, some ⟨some true⟩⟩)
      [⟨some "cid123", some ["/acme-postgres-db-1"]⟩]
      "acme-postgres-db-1").2 "cid123" (by decide)

/-- C2: over an error-free attached exec session, `create_database_dump`
returns exactly the permissively decoded stdout chunks concatenated in
arrival order; the decoded stderr chunks go to the diagnostic channel, and
the result depends only on the stdout projection of the stream — any
re-interleaving of stderr chunks leaves it unchanged. -/
theorem dump_result_is_stdout_concat (env : DockerEnv) (info : InspectInfo)
    (eid : String) (chunks : List LogOutput)
    (h1 : env.inspectRes = .ok info) (h2 : env.startRes = .ok ())
    (h3 : env.createExecRes = .ok eid)
    (h4 : env.startExecRes = .ok (.attached (chunks.map .ok))) :
    (create_database_dump env).result =
      .ok (joinAll ((stdoutBytes chunks).map utf8Lossy)) ∧
    (create_database_dump env).diagnostics = (stderrBytes chunks).map utf8Lossy ∧
    ∀ (env2 : DockerEnv) (chunks2 : List LogOutput),
      env2.inspectRes = .ok info → env2.startRes = .ok () →
      env2.createExecRes = .ok eid →
      env2.startExecRes = .ok (.attached (chunks2.map .ok)) →
      stdoutBytes chunks2 = stdoutBytes chunks →
      (create_database_dump env2).result = (create_database_dump env).result := by
  obtain ⟨hres, hdiag⟩ := create_dump_ok env info eid chunks h1 h2 h3 h4
  refine ⟨hres, hdiag, ?_⟩
  intro env2 chunks2 g1 g2 g3 g4 hproj
  obtain ⟨hres2, _⟩ := create_dump_ok env2 info eid chunks2 g1 g2 g3 g4
  rw [hres, hres2, hproj]

/-- C2 witness: a concrete interleaved session — two stdout chunks around
one stderr chunk — yielding the stdout concatenation, the stderr chunk as
the only diagnostic, and the same result when the stderr chunk moves. -/
theorem dump_result_is_stdout_concat_witness :
    (create_database_dump
        (okEnv [.stdOut [104, 105], .stdErr [110, 111], .stdOut [33]])).result =
      .ok (joinAll ((stdoutBytes
        [.stdOut [104, 105], .stdErr [110, 111], .stdOut [33]]).map utf8Lossy)) ∧
    (create_database_dump
        (okEnv [.stdOut [104, 105], .stdErr [110, 111], .stdOut [33]])).diagnostics =
      (stderrBytes
        [.stdOut [104, 105], .stdErr [110, 111], .stdOut [33]]).map utf8Lossy ∧
    (create_database_dump
        (okEnv [.stdErr [110, 111], .stdOut [104, 105], .stdOut [33]])).result =
      (create_database_dump
        (okEnv [.stdOut [104, 105], .stdErr [110, 111], .stdOut [33]])).result := by
  obtain ⟨a, b, c⟩ := dump_result_is_stdout_concat
    (okEnv [.stdOut [104, 105], .stdErr [110, 111], .stdOut [33]])
    ⟨some ⟨some "postgres"⟩, some ⟨some true⟩⟩ "execid"
    [.stdOut [104, 105], .stdErr [110, 111], .stdOut [33]]
    rfl rfl rfl rfl
  exact ⟨a, b,
    c (okEnv [.stdErr [110, 111], .stdOut [104, 105], .stdOut [33]])
      [.stdErr [110, 111], .stdOut [104, 105], .stdOut [33]]
      rfl rfl rfl rfl (by decide)⟩

/-- C3: when the inspected container is not running, the dump issues
exactly one start call and it precedes any exec-create call; when it is
running, no start call is issued. -/
theorem start_iff_not_running (env : DockerEnv) (info : InspectInfo)
    (h : env.inspectRes = .ok info) :
    ((info.state.bind (·.running)).getD false = false →
      (create_database_dump env).calls.count .start = 1 ∧
      (create_database_dump env).calls.findIdx (· == RuntimeCall.start) <
        (create_database_dump env).calls.findIdx (· == RuntimeCall.execCreate)) ∧
    ((info.state.bind (·.running)).getD false = true →
      (create_database_dump env).calls.count .start = 0) := by
  constructor
  · intro hr
    exact start_trace_of_not_running env info h hr
  · intro hr
    exact no_start_trace_of_running env info h hr

/-- C3 witness: one stopped run (one start, before exec-create) and one
running run (no start). -/
theorem start_iff_not_running_witness :
    ((create_database_dump (stoppedEnv [])).calls.count .start = 1 ∧
      (create_database_dump (stoppedEnv [])).calls.findIdx
          (· == RuntimeCall.start) <
        (create_database_dump (stoppedEnv [])).calls.findIdx
          (· == RuntimeCall.execCreate)) ∧
    (create_database_dump (okEnv [])).calls.count .start = 0 :=
  ⟨(start_iff_not_running (stoppedEnv [])
      ⟨some ⟨some "postgres"⟩, some ⟨some false⟩⟩ rfl).1 (by decide),
    (start_iff_not_running (okEnv [])
      ⟨some ⟨some "postgres"⟩, some ⟨some true⟩⟩ rfl).2 (by decide)⟩

/-- C4: a failing stream read makes `create_database_dump` return that
read's error, and the surrounding export writes nothing to disk and takes
the non-zero-exit path — the partially accumulated output is discarded. -/
theorem stream_error_aborts_export (env : DockerEnv) (info : InspectInfo)
    (eid : String) (good : List LogOutput) (e : DockerError)
    (rest : List (Except DockerError LogOutput))
    (tmp : String) (instances : Registry) (input : String)
    (h1 : env.inspectRes = .ok info) (h2 : env.startRes = .ok ())
    (h3 : env.createExecRes = .ok eid)
    (h4 : env.startExecRes = .ok (.attached (good.map .ok ++ .error e :: rest))) :
    (create_database_dump env).result = .error e ∧
    (doExport env tmp instances input).written = none ∧
    (doExport env tmp instances input).exitZero = false := by
  have herr := create_dump_error env info eid good e rest h1 h2 h3 h4
  refine ⟨herr, ?_⟩
  unfold doExport
  rcases hs : export_setup instances input with _ | ⟨inst, cid⟩
  · exact ⟨rfl, rfl⟩
  · simp [herr]

/-- C4 witness: a session that yields one stdout chunk and then a read
error; the result is that error and nothing is written. -/
theorem stream_error_aborts_export_witness :
    (create_database_dump
        ⟨.ok ⟨some ⟨some "postgres"⟩, some ⟨some true⟩⟩, .ok (), .ok "execid",
          .ok (.attached ([LogOutput.stdOut [104]].map .ok ++
            [.error "io failure"]))⟩).result = .error "io failure" ∧
    (doExport
        ⟨.ok ⟨some ⟨some "postgres"⟩, some ⟨some true⟩⟩, .ok (), .ok "execid",
          .ok (.attached ([LogOutput.stdOut [104]].map .ok ++
            [.error "io failure"]))⟩
        "/tmp" [("acme-postgres-db-1", "cid123")] "acme\n").written = none ∧
    (doExport
        ⟨.ok ⟨some ⟨some "postgres"⟩, some ⟨some true⟩⟩, .ok (), .ok "execid",
          .ok (.attached ([LogOutput.stdOut [104]].map .ok ++
            [.error "io failure"]))⟩
        "/tmp" [("acme-postgres-db-1", "cid123")] "acme\n").exitZero = false :=
  stream_error_aborts_export
    ⟨.ok ⟨some ⟨some "postgres"⟩, some ⟨some true⟩⟩, .ok (), .ok "execid",
      .ok (.attached ([LogOutput.stdOut [104]].map .ok ++ [.error "io failure"]))⟩
    ⟨some ⟨some "postgres"⟩, some ⟨some true⟩⟩ "execid"
    [.stdOut [104]] "io failure" []
    "/tmp" [("acme-postgres-db-1", "cid123")] "acme\n"
    rfl rfl rfl rfl

/-- C5: when the resolved selection key is absent from the registry, the
export performs no runtime call, touches no filesystem path (not even the
temp directory), writes nothing, and takes the non-zero-exit path. -/
theorem unknown_selection_is_inert (env : DockerEnv) (tmp : String)
    (instances : Registry) (input : String)
    (h : hashMapFind instances (rustTrim input ++ "-postgres-db-1") = none) :
    (doExport env tmp instances input).written = none ∧
    (doExport env tmp instances input).tempDirEnsured = false ∧
    (doExport env tmp instances input).calls = [] ∧
    (doExport env tmp instances input).exitZero = false := by
  simp [doExport, export_setup, h]

/-- C5 witness: an empty registry rejects any selection with no calls and
no writes. -/
theorem unknown_selection_is_inert_witness :
    (doExport (okEnv []) "/tmp" [] "acme\n").written = none ∧
    (doExport (okEnv []) "/tmp" [] "acme\n").tempDirEnsured = false ∧
    (doExport (okEnv []) "/tmp" [] "acme\n").calls = [] ∧
    (doExport (okEnv []) "/tmp" [] "acme\n").exitZero = false :=
  unknown_selection_is_inert (okEnv []) "/tmp" [] "acme\n" (by decide)

/-- C6 counterexample: a concrete successful export writes the dump at
`<tmp>/ndmig/<cid>-ndmig.sql`, not at the claimed
`<tmp>/ndmig/<cid>-export.sql`. -/
theorem dump_path_suffix_counterexample :
    (doExport (okEnv [.stdOut [104, 105]]) "/tmp"
        [("acme-postgres-db-1", "cid123")] "acme\n").written =
      some ("/tmp/ndmig/cid123-ndmig.sql", "hi") ∧
    "/tmp/ndmig/cid123-ndmig.sql" ≠ "/tmp/ndmig/cid123-export.sql" := by
  decide

/-- C6 (amended): every successful export of container identity `cid`
writes the dump at the deterministic path `<tmp>/ndmig/<cid>-ndmig.sql`
— the platform temporary directory, the fixed subdirectory `"ndmig"`, and
the file name `cid` followed by the fixed suffix `"-ndmig.sql"` — after
ensuring the directory exists, and exits zero. -/
theorem export_writes_ndmig_path (env : DockerEnv) (tmp : String)
    (instances : Registry) (input : String) (k cid sql : String)
    (h1 : export_setup instances input = some (k, cid))
    (h2 : (create_database_dump env).result = .ok sql) :
    (doExport env tmp instances input).written = some (dumpPath tmp cid, sql) ∧
    (doExport env tmp instances input).tempDirEnsured = true ∧
    (doExport env tmp instances input).exitZero = true := by
  unfold doExport
  rw [h1]
  simp [h2]

/-- C6 (amended) witness: the concrete run of the counterexample, through
the amended theorem. -/
theorem export_writes_ndmig_path_witness :
    (doExport (okEnv [.stdOut [104, 105]]) "/tmp"
        [("acme-postgres-db-1", "cid123")] "acme\n").written =
      some (dumpPath "/tmp" "cid123", "hi") ∧
    (doExport (okEnv [.stdOut [104, 105]]) "/tmp"
        [("acme-postgres-db-1", "cid123")] "acme\n").tempDirEnsured = true ∧
    (doExport (okEnv [.stdOut [104, 105]]) "/tmp"
        [("acme-postgres-db-1", "cid123")] "acme\n").exitZero = true :=
  export_writes_ndmig_path (okEnv [.stdOut [104, 105]]) "/tmp"
    [("acme-postgres-db-1", "cid123")] "acme\n"
    "acme-postgres-db-1" "cid123" "hi" (by decide) rfl

/-- C7: the Signature Matcher returns "not a match" on any inspection
failure and on any configuration carrying no image reference, rather than
propagating an error. -/
theorem matcher_absorbs_inspection_failure :
    (∀ e : DockerError, is_ballsdex_instance (.error e) = false) ∧
    (∀ info : InspectInfo, info.config.bind (·.image) = none →
      is_ballsdex_instance (.ok info) = false) := by
  constructor
  · intro e; rfl
  · intro info h
    simp [is_ballsdex_instance, h]

/-- C7 witness: a vanished container (inspection error) and a container
with no configured image both classify as non-matches. -/
theorem matcher_absorbs_inspection_failure_witness :
    is_ballsdex_instance (.error "no such container") = false ∧
    is_ballsdex_instance (.ok ⟨none, none⟩) = false :=
  ⟨matcher_absorbs_inspection_failure.1 "no such container",
    matcher_absorbs_inspection_failure.2 ⟨none, none⟩ (by decide)⟩

/-- C8: display-name resolution takes the first listed name with all
leading `/` stripped and falls back to the raw identity when no name is
available; the strip is idempotent and its result never begins with
`/`. -/
theorem display_name_strip_idempotent :
    (∀ (n : String) (rest : List String) (id : String),
      resolveDisplayName (some (n :: rest)) id = stripSlashes n) ∧
    (∀ id : String, resolveDisplayName none id = id) ∧
    (∀ id : String, resolveDisplayName (some []) id = id) ∧
    (∀ s : String, stripSlashes (stripSlashes s) = stripSlashes s) ∧
    (∀ s : String, (stripSlashes s).data.head? ≠ some '/') := by
  refine ⟨fun n rest id => rfl, fun id => rfl, fun id => rfl, ?_, ?_⟩
  · intro s
    show String.mk (dropLeadingSlashes (dropLeadingSlashes s.data)) =
      String.mk (dropLeadingSlashes s.data)
    rw [dropLeadingSlashes_idem]
  · intro s
    exact dropLeadingSlashes_head s.data

/-- C8 witness: concrete resolution, fallback, idempotence and
leading-character facts. -/
theorem display_name_strip_idempotent_witness :
    resolveDisplayName (some ["/acme-postgres-db-1"]) "cid123" =
      stripSlashes "/acme-postgres-db-1" ∧
    resolveDisplayName none "cid123" = "cid123" ∧
    stripSlashes (stripSlashes "//acme") = stripSlashes "//acme" ∧
    (stripSlashes "//acme").data.head? ≠ some '/' :=
  ⟨display_name_strip_idempotent.1 "/acme-postgres-db-1" [] "cid123",
    display_name_strip_idempotent.2.1 "cid123",
    display_name_strip_idempotent.2.2.2.1 "//acme",
    display_name_strip_idempotent.2.2.2.2 "//acme"⟩

/-- C9 counterexample: a registry key carrying a doubled role suffix makes
an input that itself ends in `"-postgres-db-1"` match, so a full qualified
input does not always take the failure path. -/
theorem full_key_input_counterexample :
    rustEndsWith (rustTrim "x-postgres-db-1") "-postgres-db-1" = true ∧
    export_setup [("x-postgres-db-1-postgres-db-1", "id1")] "x-postgres-db-1" =
      some ("x-postgres-db-1-postgres-db-1", "id1") := by
  decide

/-- C9 (amended): `export_setup` resolves the chosen key as the trimmed
input concatenated with the fixed suffix `"-postgres-db-1"`, so export can
only target registry keys ending in that suffix and the selected key is
never the typed key itself; an input whose resolved key is absent — in
particular a full qualified key whose doubled-suffix extension is not a
registry key — takes the non-zero-exit failure path. -/
theorem selection_key_concatenation (instances : Registry) (input : String) :
    (∀ k cid, export_setup instances input = some (k, cid) →
      k = rustTrim input ++ "-postgres-db-1" ∧
      hashMapFind instances k = some cid ∧
      k ≠ rustTrim input) ∧
    (hashMapFind instances (rustTrim input ++ "-postgres-db-1") = none →
      export_setup instances input = none) := by
  have hlen : ∀ t : String, t ++ "-postgres-db-1" ≠ t := by
    intro t heq
    have hl := congrArg String.length heq
    rw [String.length_append] at hl
    have h14 : ("-postgres-db-1" : String).length = 14 := by decide
    rw [h14] at hl
    omega
  unfold export_setup
  rcases hf : hashMapFind instances (rustTrim input ++ "-postgres-db-1")
    with _ | cid0
  · simp only [hf]
    exact ⟨fun k cid h => by simp at h, fun _ => by trivial⟩
  · simp only [hf]
    refine ⟨?_, fun h => by simp at h⟩
    intro k cid h
    simp only [Option.some.injEq, Prod.mk.injEq] at h
    obtain ⟨hk, hcid⟩ := h
    subst hk; subst hcid
    exact ⟨rfl, hf, hlen _⟩

/-- C9 (amended) witness: a successful selection exhibits the
concatenated key, and an absent resolved key yields the failure path. -/
theorem selection_key_concatenation_witness :
    ("acme-postgres-db-1" = rustTrim " acme\n" ++ "-postgres-db-1" ∧
      hashMapFind [("acme-postgres-db-1", "cid123")] "acme-postgres-db-1" =
        some "cid123" ∧
      "acme-postgres-db-1" ≠ rustTrim " acme\n") ∧
    export_setup [] "zzz" = none :=
  ⟨(selection_key_concatenation [("acme-postgres-db-1", "cid123")] " acme\n").1
      "acme-postgres-db-1" "cid123" (by decide),
    (selection_key_concatenation [] "zzz").2 (by decide)⟩

/-- C10: when inspection reports no state object or no running flag, the
container is treated as not running: exactly one start call is issued and
it precedes any exec-create call. -/
theorem missing_state_defaults_to_stopped (env : DockerEnv)
    (info : InspectInfo) (h1 : env.inspectRes = .ok info)
    (h2 : info.state = none ∨ ∃ s, info.state = some s ∧ s.running = none) :
    (create_database_dump env).calls.count .start = 1 ∧
    (create_database_dump env).calls.findIdx (· == RuntimeCall.start) <
      (create_database_dump env).calls.findIdx (· == RuntimeCall.execCreate) := by
  have hr : (info.state.bind (·.running)).getD false = false := by
    rcases h2 with h | ⟨s, hs, hrun⟩
    · simp [h]
    · simp [hs, hrun]
  exact start_trace_of_not_running env info h1 hr

/-- C10 witness: a container whose inspection carries no state object is
started before the exec session is created. -/
theorem missing_state_defaults_to_stopped_witness :
    (create_database_dump
        ⟨.ok ⟨some ⟨some "postgres"⟩, none⟩, .ok (), .ok "execid",
          .ok .detached⟩).calls.count .start = 1 ∧
    (create_database_dump
        ⟨.ok ⟨some ⟨some "postgres"⟩, none⟩, .ok (), .ok "execid",
          .ok .detached⟩).calls.findIdx (· == RuntimeCall.start) <
      (create_database_dump
        ⟨.ok ⟨some ⟨some "postgres"⟩, none⟩, .ok (), .ok "execid",
          .ok .detached⟩).calls.findIdx (· == RuntimeCall.execCreate) :=
  missing_state_defaults_to_stopped
    ⟨.ok ⟨some ⟨some "postgres"⟩, none⟩, .ok (), .ok "execid", .ok .detached⟩
    ⟨some ⟨some "postgres"⟩, none⟩ rfl (Or.inl rfl)

end Ndmig
